import Mathlib

/-!
Verification of the lead-enrichment bot (`lead_enrichment_bot.py` and
`streamlit_web_interface.py`).

The program is embedded shallowly:
* Python `dict[str, str]` values become ordered association lists
  (`Dict`), since Python dicts preserve insertion order and the output
  column order of `pd.DataFrame(list_of_dicts)` is the key order of the
  records.
* All network effects (HTTP HEAD / GET, the two generation backends)
  are captured in a `World` record of oracles.  An oracle returning
  `none` models the corresponding Python call raising an exception
  (timeouts, DNS failures, non-2xx via `raise_for_status`, ...).
* Python string operations used by the program are modelled on
  `String.data` (`pyLower` for `str.lower`, `pySlice s n` for `s[:n]`,
  `strContainsB` for the `in` substring test, ...).  These model the
  character-level behaviour of the Python operations on the ASCII
  range; Unicode case folding and `\w` classes are out of scope.
-/

/-- A Python `dict[str, str]`: an insertion-ordered association list. -/
abbrev Dict := List (String × String)

/-- Python `d.get(k, default)`: value of the first matching key, else the default. -/
def dictGetD (d : Dict) (k default : String) : String :=
  match d.find? (fun p => p.1 == k) with
  | some p => p.2
  | none => default

/-- Python `d[k] = v`: overwrite the value of an existing key in place
(keeping its position), else append the new binding at the end. -/
def dictInsert (d : Dict) (k v : String) : Dict :=
  if d.any (fun p => p.1 == k) then
    d.map (fun p => if p.1 == k then (k, v) else p)
  else d ++ [(k, v)]

/-- Python `d.update(m)`: apply `dictInsert` for each binding of `m` in order. -/
def dictUpdate (d : Dict) (m : Dict) : Dict :=
  m.foldl (fun acc p => dictInsert acc p.1 p.2) d

/-- Python `s.lower()`, character by character. -/
def pyLower (s : String) : String := String.mk (s.data.map Char.toLower)

/-- Python `s[:n]`. -/
def pySlice (s : String) (n : Nat) : String := String.mk (s.data.take n)

/-- Python `sub in s`: substring containment. -/
def strContainsB (s sub : String) : Bool := decide (sub.data <:+: s.data)

/-- Python replacement of every space character by the empty string. -/
def pyRemoveSpaces (s : String) : String := String.mk (s.data.filter (fun c => !(c == ' ')))

/-- Python truthiness of an optional string (`if self.gemini_api_key:` is
false both for `None` and for the empty string). -/
def pyTruthy (o : Option String) : Bool :=
  match o with
  | none => false
  | some s => s != ""

/-- Outcome of one call to a generation backend, as observed by the
`analyze_with_*` functions: the request itself may fail (any exception up
to and including indexing into the response JSON), the response text may
contain no `{{...}}` fragment, the fragment may fail `json.loads`, or it
may parse to a JSON object, modelled as a `Dict`. -/
inductive GenOutcome where
  | requestFailure
  | noJsonMatch
  | malformedJson
  | parsed (d : Dict)
deriving DecidableEq

/-- The ambient world of the enricher: configured credentials and the
behaviour of the network.  `head url` is the status code of a HEAD probe
(`none` = the request raised), `get url` is the cleaned visible text that
the BeautifulSoup `get_text` call yields for a successful GET (`none` =
the GET raised or returned non-2xx), `gemini`/`openai` map a prompt to
the outcome of the backend call, and `rowRaises name` models `enrich_company`
raising despite its contract, which `process_csv` defends against. -/
structure World where
  gemini_api_key : Option String
  openai_api_key : Option String
  head : String → Option Nat
  get : String → Option String
  gemini : String → GenOutcome
  openai : String → GenOutcome
  rowRaises : String → Bool

/-- Source lines 62-68, `is_website_accessible`: HEAD the url, true exactly
when the status code is 200; any exception gives false. -/
def is_website_accessible (w : World) (url : String) : Bool :=
  match w.head url with
  | some status => status == 200
  | none => false

/-- Source line 39: the `re.sub` that deletes every character outside the
regex classes `\w` and `\s`, keeping word characters (alphanumerics and
underscore) and whitespace. -/
def cleanName (s : String) : String :=
  String.mk (s.data.filter (fun c => c.isAlphanum || c == '_' || c.isWhitespace))

/-- Source lines 43-46: the cleaned name, lower-cased and with spaces removed. -/
def baseDomain (clean : String) : String := pyRemoveSpaces (pyLower clean)

/-- Source lines 42-47, the candidate domain list. -/
def domain_patterns (clean : String) : List String :=
  let b := baseDomain clean
  [b ++ ".com", b ++ ".co", b ++ ".io", "www." ++ b ++ ".com"]

/-- Source lines 33-56, `find_company_website`: probe the candidate
domains in order and return the first accessible one as an https url
(line 51 builds `https://{pattern}` in both branches of its conditional);
if none is accessible return the unvalidated best guess of line 56. -/
def find_company_website (w : World) (company_name : String) : String :=
  let clean := cleanName company_name
  match (domain_patterns clean).find? (fun p => is_website_accessible w ("https://" ++ p)) with
  | some p => "https://" ++ p
  | none => "https://www." ++ baseDomain clean ++ ".com"

/-- Source lines 58-60, the `except` handler of `find_company_website`:
a best-guess url built from the raw (uncleaned) name. -/
def find_company_website_on_error (company_name : String) : String :=
  "https://www." ++ pyRemoveSpaces (pyLower company_name) ++ ".com"

/-- Source lines 88-90: strip each line, split on double spaces, and
rejoin the non-empty chunks with single spaces (Python `splitlines` is
modelled as splitting on a newline). -/
def cleanChunks (text : String) : String :=
  let lines := (text.splitOn "\n").map String.trim
  let chunks := (lines.map (fun line => (line.splitOn "  ").map String.trim)).flatten
  " ".intercalate (chunks.filter (fun c => c != ""))

/-- Source lines 70-97, `scrape_website_content`: GET the url, clean the
visible text, and truncate it to 2000 characters (line 93); any failure
(timeout, non-2xx status, malformed content) yields the empty string. -/
def scrape_website_content (w : World) (url : String) : String :=
  match w.get url with
  | none => ""
  | some body =>
    let text := cleanChunks body
    if text.length > 2000 then pySlice text 2000 else text

/-- Source lines 110-122, the Gemini prompt (braces of the JSON skeleton
written as character escapes). -/
def geminiGenPrompt (company_name website_content : String) : String :=
  "\nCompany: " ++ company_name ++ "\nContent: " ++ pySlice website_content 1500 ++
  "\n\nProvide JSON only:\n\x7b\n \x22summary\x22: \x22Brief 1-sentence summary\x22,\n" ++
  " \x22target_customer\x22: \x22Main target market\x22,\n \x22industry\x22: \x22Industry category\x22,\n" ++
  " \x22company_size\x22: \x22startup/small/medium/large\x22,\n \x22automation_pitch\x22: \x22Quick AI automation idea\x22\n\x7d\n"

/-- Source lines 165-177, the OpenAI prompt. -/
def openaiGenPrompt (company_name website_content : String) : String :=
  "\nCompany: " ++ company_name ++ "\nContent: " ++ pySlice website_content 1500 ++
  "\n\nJSON response only:\n\x7b\n \x22summary\x22: \x22Brief summary\x22,\n" ++
  " \x22target_customer\x22: \x22Main target\x22,\n \x22industry\x22: \x22Industry\x22,\n" ++
  " \x22company_size\x22: \x22startup/small/medium/large\x22,\n \x22automation_pitch\x22: \x22AI automation idea\x22\n\x7d\n"

/-- Source lines 208-221, the industry branch of `fallback_analysis`,
applied to the already lower-cased content. -/
def industry_of (content_lower : String) : String :=
  if ["software", "tech", "ai", "saas", "app"].any (fun k => strContainsB content_lower k) then
    "Technology"
  else if ["financial", "banking", "fintech"].any (fun k => strContainsB content_lower k) then
    "Finance"
  else if ["health", "medical", "healthcare"].any (fun k => strContainsB content_lower k) then
    "Healthcare"
  else if ["retail", "ecommerce", "shopping"].any (fun k => strContainsB content_lower k) then
    "Retail"
  else
    "Business Services"

/-- Source lines 223-229, the size branch of `fallback_analysis`. -/
def size_of (website_content : String) : String :=
  if website_content.length > 2000 then "large"
  else if website_content.length > 1000 then "medium"
  else "small"

/-- Source lines 204-237, `fallback_analysis`: keyword-based industry,
length-based size, templated summary and pitch. -/
def fallback_analysis (company_name website_content : String) : Dict :=
  let industry := industry_of (pyLower website_content)
  let company_size := size_of website_content
  [("summary", company_name ++ " is a " ++ pyLower industry ++ " company."),
   ("target_customer", "Businesses and consumers"),
   ("industry", industry),
   ("company_size", company_size),
   ("automation_pitch", "AI chatbot and process automation for " ++ company_name)]

/-- Source lines 99-148, `analyze_with_gemini`: without a (truthy) key,
fall back; with one, any request failure, missing JSON fragment or
`json.loads` error falls back, and a successfully parsed object is
returned as-is. -/
def analyze_with_gemini (w : World) (company_name website_content : String) : Dict :=
  if !pyTruthy w.gemini_api_key then fallback_analysis company_name website_content
  else
    match w.gemini (geminiGenPrompt company_name website_content) with
    | .parsed analysis => analysis
    | _ => fallback_analysis company_name website_content

/-- Source lines 150-202, `analyze_with_openai`: same shape as the Gemini
variant over the OpenAI endpoint. -/
def analyze_with_openai (w : World) (company_name website_content : String) : Dict :=
  if !pyTruthy w.openai_api_key then fallback_analysis company_name website_content
  else
    match w.openai (openaiGenPrompt company_name website_content) with
    | .parsed analysis => analysis
    | _ => fallback_analysis company_name website_content

/-- Source lines 245-253, the initial record of `enrich_company`. -/
def enrich_init (company_name : String) : Dict :=
  [("company_name", company_name), ("website", ""), ("industry", ""), ("company_size", ""),
   ("summary_from_llm", ""), ("target_customer", ""), ("automation_pitch_from_llm", "")]

/-- Source lines 276-282 (also 286-291 and 296-301): the `result.update`
mapping an analysis dict onto the output fields, with the `.get` defaults. -/
def analysisUpdate (analysis : Dict) : Dict :=
  [("industry", dictGetD analysis "industry" "Unknown"),
   ("company_size", dictGetD analysis "company_size" "Unknown"),
   ("summary_from_llm", dictGetD analysis "summary" "No summary available"),
   ("target_customer", dictGetD analysis "target_customer" "Unknown"),
   ("automation_pitch_from_llm", dictGetD analysis "automation_pitch" "Custom AI solution available")]

/-- Source lines 239-317, `enrich_company` along its normal control flow:
resolve the website, scrape it, analyze (Gemini if a key is configured,
else OpenAI, else the rule-based fallback; empty content or a falsy
website analyze the bare name), and merge into the record.  `if website:`
and `if content:` are Python truthiness tests on strings. -/
def enrich_company (w : World) (company_name : String) : Dict :=
  let result := enrich_init company_name
  let website := find_company_website w company_name
  if website != "" then
    let result := dictInsert result "website" website
    let content := scrape_website_content w website
    if content != "" then
      let analysis :=
        if pyTruthy w.gemini_api_key then analyze_with_gemini w company_name content
        else if pyTruthy w.openai_api_key then analyze_with_openai w company_name content
        else fallback_analysis company_name content
      dictUpdate result (analysisUpdate analysis)
    else
      dictUpdate result (analysisUpdate (fallback_analysis company_name company_name))
  else
    dictUpdate result (analysisUpdate (fallback_analysis company_name company_name))

/-- Source lines 304-313, the `except` handler of `enrich_company`: the
degraded update applied to whatever `result` held when the exception was
raised (`result` is the init record if the error preceded the website
assignment of line 259, and has `website` set if it followed it). -/
def enrich_on_error (company_name : String) (result : Dict) : Dict :=
  dictUpdate result
    [("industry", "Unknown"), ("company_size", "Unknown"),
     ("summary_from_llm", "Error processing " ++ company_name),
     ("target_customer", "Unknown"),
     ("automation_pitch_from_llm", "Please contact us for custom solution")]

/-- Source lines 350-358, the substitute record `process_csv` appends when
an individual `enrich_company` call raises despite its contract. -/
def degradedRow (company_name : String) : Dict :=
  [("company_name", company_name), ("website", "Unknown"), ("industry", "Unknown"),
   ("company_size", "Unknown"), ("summary_from_llm", "Error processing company"),
   ("target_customer", "Unknown"),
   ("automation_pitch_from_llm", "Please contact us for custom solution")]

/-- Source lines 344-358, the per-row try/except of `process_csv`. -/
def process_row (w : World) (company_name : String) : Dict :=
  if w.rowRaises company_name then degradedRow company_name
  else enrich_company w company_name

/-- An already-parsed input table: its column names and its rows (pandas
guarantees every row carries every column). -/
structure Frame where
  columns : List String
  rows : List Dict

/-- Source lines 319-361, `process_csv` after the file has been read: a
missing `company_name` column raises `ValueError` (line 334) before the
processing loop; otherwise each row is enriched in file order and the
records are collected in that order. -/
def process_csv (w : World) (f : Frame) : Except String (List Dict) :=
  if "company_name" ∈ f.columns then
    Except.ok (f.rows.map (fun row => process_row w (dictGetD row "company_name" "")))
  else
    Except.error "CSV must contain \x27company_name\x27 column"

/-- Python `", ".join(columns)`. -/
def joinComma : List String → String
  | [] => ""
  | [c] => c
  | c :: rest => c ++ ", " ++ joinComma rest

/-- Lines 296-298 of `streamlit_web_interface.py`: the message shown when
the uploaded table lacks the `company_name` column. -/
def ui_missing_column_message (columns : List String) : String :=
  "Available columns: " ++ joinComma columns

/-- The seven output fields of an enriched record, in their fixed order. -/
def enrichedFields : List String :=
  ["company_name", "website", "industry", "company_size",
   "summary_from_llm", "target_customer", "automation_pitch_from_llm"]

/-- The five fields of an analysis result. -/
def analysisFields : List String :=
  ["summary", "target_customer", "industry", "company_size", "automation_pitch"]

/-- A field is present in a dict with a non-empty value. -/
def fieldOK (d : Dict) (k : String) : Bool :=
  match d.find? (fun p => p.1 == k) with
  | some p => p.2 != ""
  | none => false

/-- A world with no credentials and a dead network: every probe raises. -/
def w0 : World :=
  ⟨none, none, fun _ => none, fun _ => none,
   fun _ => GenOutcome.requestFailure, fun _ => GenOutcome.requestFailure, fun _ => false⟩

/-- A world whose Gemini backend answers with well-formed JSON that lacks
all five analysis fields. -/
def wParsedJunk : World :=
  ⟨some "k", none, fun _ => none, fun _ => none,
   fun _ => GenOutcome.parsed [("foo", "bar")], fun _ => GenOutcome.requestFailure, fun _ => false⟩

/-- A world with both backends configured and both returning a JSON-looking
fragment that fails to parse. -/
def wMalformed : World :=
  ⟨some "k", some "k", fun _ => none, fun _ => none,
   fun _ => GenOutcome.malformedJson, fun _ => GenOutcome.malformedJson, fun _ => false⟩

/-- A world whose HEAD probe always reports status 200. -/
def wHead200 : World :=
  ⟨none, none, fun _ => some 200, fun _ => none,
   fun _ => GenOutcome.requestFailure, fun _ => GenOutcome.requestFailure, fun _ => false⟩

/-- A one-row input table with the required column. -/
def frameOK : Frame := ⟨["company_name"], [[("company_name", "Acme")]]⟩

/-- A non-empty input table lacking the required column. -/
def frameNoCol : Frame := ⟨["name", "city"], [[("name", "Acme")]]⟩

/-- A non-empty append is non-empty (right component). -/
theorem append_ne_empty_right (a b : String) (h : b ≠ "") : a ++ b ≠ "" := by
  intro hc
  apply h
  apply String.ext
  have hd := congrArg String.data hc
  rw [String.data_append] at hd
  exact (List.append_eq_nil.mp hd).2

/-- A non-empty append is non-empty (left component). -/
theorem append_ne_empty_left (a b : String) (h : a ≠ "") : a ++ b ≠ "" := by
  intro hc
  apply h
  apply String.ext
  have hd := congrArg String.data hc
  rw [String.data_append] at hd
  exact (List.append_eq_nil.mp hd).1

/-- The resolved website is never the empty string. -/
theorem find_company_website_ne_empty (w : World) (n : String) :
    find_company_website w n ≠ "" := by
  simp only [find_company_website]
  split
  · exact append_ne_empty_left _ _ (by decide)
  · exact append_ne_empty_right _ _ (by decide)

/-- The error-path best guess is never the empty string either. -/
theorem find_company_website_on_error_ne_empty (n : String) :
    find_company_website_on_error n ≠ "" :=
  append_ne_empty_right _ _ (by decide)

/-- Every record produced by `enrich_company` has exactly the seven output
fields, in their fixed order. -/
theorem enrich_company_keys (w : World) (n : String) :
    (enrich_company w n).map Prod.fst = enrichedFields := by
  simp only [enrich_company]
  split
  · split <;> rfl
  · rfl

/-- The `company_name` field of an enriched record is the input name. -/
theorem enrich_company_name_field (w : World) (n : String) :
    dictGetD (enrich_company w n) "company_name" "" = n := by
  simp only [enrich_company]
  split
  · split <;> rfl
  · rfl

/-- The `website` field of an enriched record is exactly the resolved
website (the resolver never returns an empty string, so the truthiness
test of line 258 always succeeds). -/
theorem enrich_company_website_field (w : World) (n : String) :
    dictGetD (enrich_company w n) "website" "?" = find_company_website w n := by
  have hb : (find_company_website w n != "") = true := by
    simpa [bne_iff_ne] using find_company_website_ne_empty w n
  simp only [enrich_company, hb, if_true]
  split <;> rfl

/-- The `industry` field of a fallback analysis is the keyword classification
of the lower-cased content. -/
theorem fallback_industry_field (n c : String) :
    dictGetD (fallback_analysis n c) "industry" "" = industry_of (pyLower c) := rfl

/-- The `company_size` field of a fallback analysis is the length estimate
of the raw content. -/
theorem fallback_size_field (n c : String) :
    dictGetD (fallback_analysis n c) "company_size" "" = size_of c := rfl

/-- The keyword classifier only ever produces one of five fixed non-empty
industry names. -/
theorem industry_of_ne_empty (l : String) : industry_of l ≠ "" := by
  unfold industry_of
  split
  · decide
  split
  · decide
  split
  · decide
  split
  · decide
  decide

/-- The size estimate is always one of three fixed non-empty labels. -/
theorem size_of_ne_empty (c : String) : size_of c ≠ "" := by
  unfold size_of
  split
  · decide
  split
  · decide
  decide

/-- Substring containment survives lower-casing when the pattern is
already lower-case. -/
theorem strContainsB_pyLower (s sub : String)
    (hsub : sub.data.map Char.toLower = sub.data) (h : strContainsB s sub = true) :
    strContainsB (pyLower s) sub = true := by
  have h1 : sub.data <:+: s.data := of_decide_eq_true h
  have h2 := List.IsInfix.map Char.toLower h1
  rw [hsub] at h2
  exact decide_eq_true h2

/-- Content containing the word software triggers the technology keyword set. -/
theorem tech_any_of_software (c : String) (h : strContainsB c "software" = true) :
    (["software", "tech", "ai", "saas", "app"].any fun k => strContainsB (pyLower c) k) = true := by
  refine List.any_eq_true.mpr ⟨"software", by simp, ?_⟩
  exact strContainsB_pyLower c "software" (by decide) h

/-- Every column name occurs in the comma-joined column list. -/
theorem mem_data_infix_joinComma (c : String) (cols : List String) (hc : c ∈ cols) :
    c.data <:+: (joinComma cols).data := by
  induction cols with
  | nil => cases hc
  | cons x rest ih =>
    cases rest with
    | nil =>
      rw [List.mem_singleton.mp hc]
      exact List.infix_refl _
    | cons y t =>
      rcases List.mem_cons.mp hc with rfl | hmem
      · show c.data <:+: (c ++ ", " ++ joinComma (y :: t)).data
        rw [String.data_append, String.data_append, List.append_assoc]
        exact (List.prefix_append _ _).isInfix
      · have h1 := ih hmem
        show c.data <:+: (x ++ ", " ++ joinComma (y :: t)).data
        rw [String.data_append]
        exact h1.trans (List.suffix_append _ _).isInfix

/-- The web-interface error message mentions every available column name. -/
theorem ui_message_lists_columns (cols : List String) (c : String) (hc : c ∈ cols) :
    strContainsB (ui_missing_column_message cols) c = true := by
  have h : c.data <:+: ("Available columns: " ++ joinComma cols).data := by
    rw [String.data_append]
    exact (mem_data_infix_joinComma c cols hc).trans (List.suffix_append _ _).isInfix
  exact decide_eq_true h

/-- The rule-based fallback always populates all five analysis fields with
non-empty strings. -/
theorem fallback_fieldOK (n c : String) (k : String) (hk : k ∈ analysisFields) :
    fieldOK (fallback_analysis n c) k = true := by
  simp only [analysisFields, List.mem_cons, List.mem_singleton, List.not_mem_nil, or_false] at hk
  rcases hk with rfl | rfl | rfl | rfl | rfl
  · show ((n ++ " is a " ++ pyLower (industry_of (pyLower c)) ++ " company.") != "") = true
    rw [bne_iff_ne]
    exact append_ne_empty_right _ _ (by decide)
  · rfl
  · show ((industry_of (pyLower c)) != "") = true
    rw [bne_iff_ne]
    exact industry_of_ne_empty _
  · show ((size_of c) != "") = true
    rw [bne_iff_ne]
    exact size_of_ne_empty _
  · show (("AI chatbot and process automation for " ++ n) != "") = true
    rw [bne_iff_ne]
    exact append_ne_empty_left _ _ (by decide)

/-- The Gemini analysis either is the rule-based fallback or returns a
successfully parsed backend object unchanged. -/
theorem analyze_with_gemini_cases (w : World) (n c : String) :
    analyze_with_gemini w n c = fallback_analysis n c ∨
    ∃ d, w.gemini (geminiGenPrompt n c) = GenOutcome.parsed d ∧
      analyze_with_gemini w n c = d := by
  unfold analyze_with_gemini
  split
  · exact Or.inl rfl
  · cases hg : w.gemini (geminiGenPrompt n c) with
    | parsed d => exact Or.inr ⟨d, rfl, rfl⟩
    | requestFailure => exact Or.inl rfl
    | noJsonMatch => exact Or.inl rfl
    | malformedJson => exact Or.inl rfl

/-- The OpenAI analysis either is the rule-based fallback or returns a
successfully parsed backend object unchanged. -/
theorem analyze_with_openai_cases (w : World) (n c : String) :
    analyze_with_openai w n c = fallback_analysis n c ∨
    ∃ d, w.openai (openaiGenPrompt n c) = GenOutcome.parsed d ∧
      analyze_with_openai w n c = d := by
  unfold analyze_with_openai
  split
  · exact Or.inl rfl
  · cases hg : w.openai (openaiGenPrompt n c) with
    | parsed d => exact Or.inr ⟨d, rfl, rfl⟩
    | requestFailure => exact Or.inl rfl
    | noJsonMatch => exact Or.inl rfl
    | malformedJson => exact Or.inl rfl

/-- Scraped content is truncated to at most 2000 characters. -/
theorem scrape_length_le (w : World) (url : String) :
    (scrape_website_content w url).length ≤ 2000 := by
  unfold scrape_website_content
  cases w.get url with
  | none => decide
  | some body =>
    simp only
    split
    · show (String.mk ((cleanChunks body).data.take 2000)).length ≤ 2000
      rw [String.mk_length]
      exact List.length_take_le _ _
    · omega

/-- Every record produced by the per-row runner has the seven fields. -/
theorem process_row_keys (w : World) (n : String) :
    (process_row w n).map Prod.fst = enrichedFields := by
  unfold process_row
  split
  · rfl
  · exact enrich_company_keys w n

/-- The `company_name` field of every runner record is the input name. -/
theorem process_row_name_field (w : World) (n : String) :
    dictGetD (process_row w n) "company_name" "" = n := by
  unfold process_row
  split
  · rfl
  · exact enrich_company_name_field w n

/-- C5 (amended): with no generation backend involved, the rule-based
fallback classifies content containing the keyword software as Technology
(software is in the first-priority keyword set, so this holds for every
such content); content containing the keyword medical is classified as
Healthcare provided the lower-cased content matches no technology and no
finance keyword (the sets tested earlier in the fixed priority order
technology, finance, healthcare, retail); and content matching none of
the four keyword sets is classified as Business Services. -/
theorem fallback_industry_priority (n c : String) :
    (strContainsB c "software" = true →
      dictGetD (fallback_analysis n c) "industry" "" = "Technology") ∧
    ((["software", "tech", "ai", "saas", "app"].any fun k => strContainsB (pyLower c) k) = false →
     (["financial", "banking", "fintech"].any fun k => strContainsB (pyLower c) k) = false →
     strContainsB c "medical" = true →
      dictGetD (fallback_analysis n c) "industry" "" = "Healthcare") ∧
    ((["software", "tech", "ai", "saas", "app"].any fun k => strContainsB (pyLower c) k) = false →
     (["financial", "banking", "fintech"].any fun k => strContainsB (pyLower c) k) = false →
     (["health", "medical", "healthcare"].any fun k => strContainsB (pyLower c) k) = false →
     (["retail", "ecommerce", "shopping"].any fun k => strContainsB (pyLower c) k) = false →
      dictGetD (fallback_analysis n c) "industry" "" = "Business Services") := by
  rw [fallback_industry_field]
  unfold industry_of
  refine ⟨fun h => ?_, fun h1 h2 h3 => ?_, fun h1 h2 h3 h4 => ?_⟩
  · rw [if_pos (tech_any_of_software c h)]
  · have hmed :
        (["health", "medical", "healthcare"].any fun k => strContainsB (pyLower c) k) = true := by
      refine List.any_eq_true.mpr ⟨"medical", by simp, ?_⟩
      exact strContainsB_pyLower c "medical" (by decide) h3
    rw [h1, h2, hmed]
    simp
  · rw [h1, h2, h3, h4]
    simp

/-- C5 witness: concrete contents exercising each branch of the theorem. -/
theorem fallback_industry_priority_witness :
    dictGetD (fallback_analysis "X" "great software") "industry" "" = "Technology" ∧
    dictGetD (fallback_analysis "X" "medical clinic") "industry" "" = "Healthcare" ∧
    dictGetD (fallback_analysis "X" "zzz.") "industry" "" = "Business Services" :=
  ⟨(fallback_industry_priority "X" "great software").1 (by decide),
   (fallback_industry_priority "X" "medical clinic").2.1 (by decide) (by decide) (by decide),
   (fallback_industry_priority "X" "zzz.").2.2 (by decide) (by decide) (by decide) (by decide)⟩

/-- C5 counterexample: the content "medical software" contains the keyword
medical, yet the classifier answers Technology, because the technology
keyword set is tested first — refuting the claim that every content
containing medical classifies as Healthcare. -/
theorem fallback_medical_with_tech_keyword :
    strContainsB "medical software" "medical" = true ∧
    dictGetD (fallback_analysis "X" "medical software") "industry" "" = "Technology" ∧
    (dictGetD (fallback_analysis "X" "medical software") "industry" "" == "Healthcare") = false :=
  ⟨by decide, by decide, by decide⟩

/-- C6: the rule-based fallback sets company_size to large exactly when the
content length exceeds 2000 characters, medium when it exceeds 1000 (but
not 2000), and small otherwise. -/
theorem fallback_size_thresholds (n c : String) :
    (2000 < c.length → dictGetD (fallback_analysis n c) "company_size" "" = "large") ∧
    (1000 < c.length → c.length ≤ 2000 →
      dictGetD (fallback_analysis n c) "company_size" "" = "medium") ∧
    (c.length ≤ 1000 → dictGetD (fallback_analysis n c) "company_size" "" = "small") := by
  rw [fallback_size_field]
  unfold size_of
  refine ⟨fun h1 => ?_, fun h1 h2 => ?_, fun h1 => ?_⟩
  · rw [if_pos h1]
  · rw [if_neg (by omega), if_pos h1]
  · rw [if_neg (by omega), if_neg (by omega)]

/-- C6 witness: content of length 2500 yields large, 1500 yields medium,
500 yields small. -/
theorem fallback_size_thresholds_witness :
    (2000 < (String.mk (List.replicate 2500 'a')).length ∧
      dictGetD (fallback_analysis "X" (String.mk (List.replicate 2500 'a')))
        "company_size" "" = "large") ∧
    (1000 < (String.mk (List.replicate 1500 'a')).length ∧
      dictGetD (fallback_analysis "X" (String.mk (List.replicate 1500 'a')))
        "company_size" "" = "medium") ∧
    ((String.mk (List.replicate 500 'a')).length ≤ 1000 ∧
      dictGetD (fallback_analysis "X" (String.mk (List.replicate 500 'a')))
        "company_size" "" = "small") :=
  ⟨⟨by rw [String.mk_length, List.length_replicate]; omega,
    (fallback_size_thresholds "X" _).1 (by rw [String.mk_length, List.length_replicate]; omega)⟩,
   ⟨by rw [String.mk_length, List.length_replicate]; omega,
    (fallback_size_thresholds "X" _).2.1 (by rw [String.mk_length, List.length_replicate]; omega)
      (by rw [String.mk_length, List.length_replicate]; omega)⟩,
   ⟨by rw [String.mk_length, List.length_replicate]; omega,
    (fallback_size_thresholds "X" _).2.2
      (by rw [String.mk_length, List.length_replicate]; omega)⟩⟩

/-- C9: scraped website content is always at most 2000 characters long, so
the rule-based size estimate applied to scraped content can never answer
large (which requires strictly more than 2000 characters). -/
theorem scrape_never_large (w : World) (url name : String) :
    (scrape_website_content w url).length ≤ 2000 ∧
    dictGetD (fallback_analysis name (scrape_website_content w url))
      "company_size" "" ≠ "large" := by
  refine ⟨scrape_length_le w url, ?_⟩
  rw [fallback_size_field]
  unfold size_of
  rw [if_neg (by have := scrape_length_le w url; omega)]
  split
  · decide
  · decide

/-- C10: the accessibility probe answers true exactly when the HEAD request
returns status 200; every other status (201, 204, 301, 302, ...) and every
raised exception (`none`) yields false. -/
theorem is_website_accessible_iff_200 (w : World) (url : String) :
    is_website_accessible w url = true ↔ w.head url = some 200 := by
  unfold is_website_accessible
  cases h : w.head url with
  | none => simp
  | some s => simp [beq_iff_eq]

/-- C10 witness: a status-200 world probes true, a dead network probes false. -/
theorem is_website_accessible_iff_200_witness :
    is_website_accessible wHead200 "https://example.com" = true ∧
    is_website_accessible w0 "https://example.com" = false :=
  ⟨(is_website_accessible_iff_200 wHead200 "https://example.com").mpr rfl, rfl⟩

/-- C9 witness: the theorem applied at a concrete world and url. -/
theorem scrape_never_large_witness :
    (scrape_website_content w0 "https://acme.com").length ≤ 2000 ∧
    dictGetD (fallback_analysis "Acme" (scrape_website_content w0 "https://acme.com"))
      "company_size" "" ≠ "large" :=
  scrape_never_large w0 "https://acme.com" "Acme"

/-- C3 (amended): the analysis step is total (never raises); the rule-based
fallback always returns all five analysis fields present and non-empty,
and so do `analyze_with_gemini` and `analyze_with_openai` whenever the
backend does not hand back a successfully parsed JSON object (no key
configured, request failure, no JSON fragment, or malformed JSON) — a
successfully parsed object, however, is returned unvalidated. -/
theorem analyze_fields_populated (w : World) (n c : String) :
    (∀ k ∈ analysisFields, fieldOK (fallback_analysis n c) k = true) ∧
    ((∀ d, w.gemini (geminiGenPrompt n c) ≠ GenOutcome.parsed d) →
      ∀ k ∈ analysisFields, fieldOK (analyze_with_gemini w n c) k = true) ∧
    ((∀ d, w.openai (openaiGenPrompt n c) ≠ GenOutcome.parsed d) →
      ∀ k ∈ analysisFields, fieldOK (analyze_with_openai w n c) k = true) := by
  refine ⟨fun k hk => fallback_fieldOK n c k hk, fun hno k hk => ?_, fun hno k hk => ?_⟩
  · rcases analyze_with_gemini_cases w n c with hfb | ⟨d, hg, -⟩
    · rw [hfb]; exact fallback_fieldOK n c k hk
    · exact absurd hg (hno d)
  · rcases analyze_with_openai_cases w n c with hfb | ⟨d, hg, -⟩
    · rw [hfb]; exact fallback_fieldOK n c k hk
    · exact absurd hg (hno d)

/-- C3 witness: the theorem applied at empty name and content with a failing
backend, a malformed-JSON backend, and the bare fallback. -/
theorem analyze_fields_populated_witness :
    fieldOK (analyze_with_gemini w0 "Acme" "") "summary" = true ∧
    fieldOK (analyze_with_gemini wMalformed "" "") "industry" = true ∧
    fieldOK (fallback_analysis "" "") "company_size" = true :=
  ⟨(analyze_fields_populated w0 "Acme" "").2.1 (fun d h => nomatch h) "summary" (by decide),
   (analyze_fields_populated wMalformed "" "").2.1 (fun d h => nomatch h) "industry" (by decide),
   (analyze_fields_populated w0 "" "").1 "company_size" (by decide)⟩

/-- C3 counterexample: a configured backend that answers with the
well-formed JSON object containing only a foo field makes
`analyze_with_gemini` return that object as-is; the summary field is
absent, refuting the claim that all five fields are always present and
non-empty in the returned result. -/
theorem analyze_parsed_json_lacks_fields :
    fieldOK (analyze_with_gemini wParsedJunk "Acme" "some content") "summary" = false := by
  decide

/-- C4: whenever the generation backend yields a JSON-looking fragment that
fails to parse, the analysis function returns exactly the rule-based
fallback applied to the identical name and content arguments (note the
fallback receives the full original content, not the truncated prompt
content). -/
theorem analyze_malformed_falls_back (w : World) (n c : String) :
    (w.gemini (geminiGenPrompt n c) = GenOutcome.malformedJson →
      analyze_with_gemini w n c = fallback_analysis n c) ∧
    (w.openai (openaiGenPrompt n c) = GenOutcome.malformedJson →
      analyze_with_openai w n c = fallback_analysis n c) := by
  constructor
  · intro hg
    unfold analyze_with_gemini
    split
    · rfl
    · rw [hg]
  · intro ho
    unfold analyze_with_openai
    split
    · rfl
    · rw [ho]

/-- C4 witness: concrete malformed-JSON worlds give exact fallback
equivalence for both backends. -/
theorem analyze_malformed_falls_back_witness :
    analyze_with_gemini wMalformed "Acme" "web text" = fallback_analysis "Acme" "web text" ∧
    analyze_with_openai wMalformed "Acme" "web text" = fallback_analysis "Acme" "web text" :=
  ⟨(analyze_malformed_falls_back wMalformed "Acme" "web text").1 rfl,
   (analyze_malformed_falls_back wMalformed "Acme" "web text").2 rfl⟩

/-- C1: for every input table with a company_name column, `process_csv`
succeeds and produces exactly one output record per input row, in input
order (the record at index i carries the company name of row i), and
every output record has exactly the seven fields company_name, website,
industry, company_size, summary_from_llm, target_customer,
automation_pitch_from_llm in that fixed order. -/
theorem process_csv_one_record_per_row (w : World) (f : Frame)
    (h : "company_name" ∈ f.columns) :
    ∃ out, process_csv w f = Except.ok out ∧ out.length = f.rows.length ∧
      ∀ i : Nat, (hi : i < f.rows.length) → ∃ r row,
        out[i]? = some r ∧ f.rows[i]? = some row ∧
        r.map Prod.fst = enrichedFields ∧
        dictGetD r "company_name" "" = dictGetD row "company_name" "" := by
  refine ⟨f.rows.map (fun row => process_row w (dictGetD row "company_name" "")), ?_, by simp, ?_⟩
  · unfold process_csv
    rw [if_pos h]
  · intro i hi
    have hrow : f.rows[i]? = some (f.rows[i]) := List.getElem?_eq_getElem hi
    refine ⟨process_row w (dictGetD (f.rows[i]) "company_name" ""), f.rows[i],
      ?_, hrow, process_row_keys _ _, process_row_name_field _ _⟩
    rw [List.getElem?_map, hrow]
    rfl

/-- C1 witness: the theorem applied to a concrete one-row table. -/
theorem process_csv_one_record_per_row_witness :
    "company_name" ∈ frameOK.columns ∧
    (∃ out, process_csv w0 frameOK = Except.ok out ∧ out.length = frameOK.rows.length ∧
      ∀ i : Nat, (hi : i < frameOK.rows.length) → ∃ r row,
        out[i]? = some r ∧ frameOK.rows[i]? = some row ∧
        r.map Prod.fst = enrichedFields ∧
        dictGetD r "company_name" "" = dictGetD row "company_name" "") :=
  ⟨by decide, process_csv_one_record_per_row w0 frameOK (by decide)⟩

/-- C2 (amended): `enrich_company` is total (never raises) and always
returns a complete seven-field record; the record assembled by its error
handler carries the sentinels Unknown / Error processing name / Please
contact us for custom solution in the five analysis fields, keeps the
input name in company_name, and keeps in website whatever value was
assigned before the error — the empty string when the error preceded
website resolution, the resolved url afterwards. -/
theorem enrich_error_record_shape (w : World) (name url : String) :
    (enrich_company w name).map Prod.fst = enrichedFields ∧
    enrich_on_error name (enrich_init name) =
      [("company_name", name), ("website", ""), ("industry", "Unknown"),
       ("company_size", "Unknown"), ("summary_from_llm", "Error processing " ++ name),
       ("target_customer", "Unknown"),
       ("automation_pitch_from_llm", "Please contact us for custom solution")] ∧
    enrich_on_error name (dictInsert (enrich_init name) "website" url) =
      [("company_name", name), ("website", url), ("industry", "Unknown"),
       ("company_size", "Unknown"), ("summary_from_llm", "Error processing " ++ name),
       ("target_customer", "Unknown"),
       ("automation_pitch_from_llm", "Please contact us for custom solution")] :=
  ⟨enrich_company_keys w name, rfl, rfl⟩

/-- C2 counterexample: when the error precedes the website assignment, the
degraded record contains the empty string in its website field — refuting
the claim that every field of the degraded record carries a non-empty
sentinel string. -/
theorem enrich_error_record_empty_website :
    (enrich_on_error "Acme" (enrich_init "Acme")).map Prod.fst = enrichedFields ∧
    dictGetD (enrich_on_error "Acme" (enrich_init "Acme")) "website" "?" = "" := by
  decide

/-- C7: website resolution never fails: it returns the first candidate
domain that passes the accessibility probe; when no candidate is
accessible it returns the non-empty unvalidated best guess (and its
internal-error fallback is likewise non-empty), so the record returned by
`enrich_company` always carries that non-empty website. -/
theorem find_website_contract (w : World) (name : String) :
    (∀ p, (domain_patterns (cleanName name)).find?
        (fun q => is_website_accessible w ("https://" ++ q)) = some p →
      find_company_website w name = "https://" ++ p ∧
      p ∈ domain_patterns (cleanName name) ∧
      is_website_accessible w ("https://" ++ p) = true) ∧
    ((domain_patterns (cleanName name)).find?
        (fun q => is_website_accessible w ("https://" ++ q)) = none →
      find_company_website w name = "https://www." ++ baseDomain (cleanName name) ++ ".com") ∧
    find_company_website w name ≠ "" ∧
    find_company_website_on_error name ≠ "" ∧
    dictGetD (enrich_company w name) "website" "?" = find_company_website w name ∧
    dictGetD (enrich_company w name) "website" "?" ≠ "" := by
  refine ⟨fun p hp => ⟨?_, List.mem_of_find?_eq_some hp, ?_⟩, fun hn => ?_,
    find_company_website_ne_empty w name, find_company_website_on_error_ne_empty name,
    enrich_company_website_field w name, ?_⟩
  · simp only [find_company_website]
    rw [hp]
  · have hacc := List.find?_some hp
    exact hacc
  · simp only [find_company_website]
    rw [hn]
  · rw [enrich_company_website_field w name]
    exact find_company_website_ne_empty w name

/-- C7 witness: with a dead network the best guess is returned and the
enriched record carries it; with an all-200 network the first candidate
is returned. -/
theorem find_website_contract_witness :
    find_company_website w0 "Acme" = "https://www." ++ baseDomain (cleanName "Acme") ++ ".com" ∧
    find_company_website wHead200 "Acme" = "https://" ++ "acme.com" ∧
    dictGetD (enrich_company w0 "Acme") "website" "?" ≠ "" :=
  ⟨(find_website_contract w0 "Acme").2.1 (by decide),
   ((find_website_contract wHead200 "Acme").1 "acme.com" (by decide)).1,
   (find_website_contract w0 "Acme").2.2.2.2.2⟩

/-- C8 (amended): a missing company_name column makes `process_csv` halt
with its ValueError before any record is enriched (the result carries no
records), while the web-interface error report lists all available
column names; the `process_csv` error message itself does not list them. -/
theorem missing_column_halts (w : World) (f : Frame) (h : "company_name" ∉ f.columns) :
    process_csv w f = Except.error "CSV must contain \x27company_name\x27 column" ∧
    ∀ c ∈ f.columns, strContainsB (ui_missing_column_message f.columns) c = true := by
  refine ⟨?_, fun c hc => ui_message_lists_columns f.columns c hc⟩
  unfold process_csv
  rw [if_neg h]

/-- C8 witness: the theorem applied to a concrete table without the
required column. -/
theorem missing_column_halts_witness :
    process_csv w0 frameNoCol = Except.error "CSV must contain \x27company_name\x27 column" ∧
    strContainsB (ui_missing_column_message frameNoCol.columns) "city" = true :=
  ⟨(missing_column_halts w0 frameNoCol (by decide)).1,
   (missing_column_halts w0 frameNoCol (by decide)).2 "city" (by decide)⟩

/-- C8 counterexample: for a table with columns name and city (and a
non-empty row), `process_csv` halts with its fixed ValueError message,
and that error report does not mention the available column city —
refuting the claim that the error report lists all available column
names. -/
theorem process_csv_error_message_no_columns :
    process_csv w0 frameNoCol = Except.error "CSV must contain \x27company_name\x27 column" ∧
    strContainsB "CSV must contain \x27company_name\x27 column" "city" = false :=
  ⟨rfl, by decide⟩
